import Mathlib

/-!
Verification of `src/vtk_utils/visualization_utils.py` (SPPARKS_Snellius).

The module validates a NumPy array's shape against a fixed extent, wraps the
array into a structured grid (pyvista ImageData) with a single cell-scalar
field, and renders it off screen to an image file, dispatching between a
surface-mesh render (2D, some axis of size 1) and a volume render (3D).

Modelling choices:
- a NumPy array is its shape (a list of axis sizes, natural numbers) plus the
  value at each multi-index; its C-order flattening enumerates multi-indices
  with the last axis varying fastest;
- extents and geometric dimensions are lists of integers, so that the
  point-to-cell conversion `e - 1` behaves exactly like Python int arithmetic;
- the Python ValueError raised by `check_array_dimensions` becomes the
  `Except.error` case of a `ShapeMismatch` record carrying both shapes;
- the calls into the rendering collaborator (pyvista) are modelled as a list
  of events in program order; a failure oracle `succeeds : Event → Bool` says
  which collaborator calls succeed, and `runSteps` executes the event list up
  to (excluding) the first failing call, exactly as a raised Python exception
  would abort the remainder of the function body.
-/

set_option autoImplicit false

namespace VizUtils

/-- A NumPy-style dense array: the list of axis sizes together with the value
stored at each multi-index.  `entry` is only meaningful on indices that are
componentwise below `shape`. -/
structure NDArray (α : Type) where
  shape : List Nat
  entry : List Nat → α

/-- All multi-indices of a given shape in row-major (C) order: the first axis
varies slowest, the last axis fastest. -/
def indicesC : List Nat → List (List Nat)
  | [] => [[]]
  | n :: rest => (List.range n).flatMap fun i => (indicesC rest).map (i :: ·)

/-- `numpy_array.flatten(order="C")`: the entries in row-major order. -/
def flattenC {α : Type} (a : NDArray α) : List α :=
  (indicesC a.shape).map a.entry

/-- `EXTENT_SIZE_3D = (101, 101, 51)` — total point counts including index 0. -/
def EXTENT_SIZE_3D : List Int := [101, 101, 51]

/-- `EXTENT_SIZE_2D = (101, 101)` — expected point counts for 2D rendering. -/
def EXTENT_SIZE_2D : List Int := [101, 101]

/-- `ORIGIN = (0, 0, 0)`. -/
def ORIGIN : List Int := [0, 0, 0]

/-- `SPACING = (1, 1, 1)`. -/
def SPACING : List Int := [1, 1, 1]

/-- `CELL_DATA = "Spin"` — the name of the scalar attribute in CellData. -/
def CELL_DATA : String := "Spin"

/-- The payload of the ValueError raised by `check_array_dimensions`: the
message interpolates the actual array shape and the expected shape. -/
structure ShapeMismatch where
  actual : List Int
  expected : List Int
  deriving DecidableEq, Repr

/-- The expected cell shape derived from an extent:
`tuple(e - 1 for e in extent_size)`. -/
def expected_shape (extent_size : List Int) : List Int :=
  extent_size.map fun e => e - 1

/-- `check_array_dimensions(numpy_array, extent_size)`: computes
`expected_shape = tuple(e - 1 for e in extent_size)`, raises ValueError (here:
`Except.error` with both shapes) when `numpy_array.shape != expected_shape`,
and returns True otherwise. -/
def check_array_dimensions {α : Type} (numpy_array : NDArray α)
    (extent_size : List Int) : Except ShapeMismatch Bool :=
  if numpy_array.shape.map Int.ofNat ≠ expected_shape extent_size then
    Except.error ⟨numpy_array.shape.map Int.ofNat, expected_shape extent_size⟩
  else
    Except.ok true

/-- One call into the rendering collaborator (pyvista), in program order. -/
inductive Event where
  | startXvfb : Event
  | acquirePlotter : Event
  | addMesh (cmap : String) (showEdges : Option Bool) : Event
  | addVolume (cmap : Option String) (scalarBarTitle : Option String) : Event
  | showPlot : Event
  | screenshot (filename : String) : Event
  | closePlotter : Event
  deriving DecidableEq, Repr

/-- `render_vtk(vtk_data_object, filename)`: reads the object's
`GetDimensions()`, then start_xvfb, wrap, Plotter(off_screen=True); if
`1 in dims` adds the data as a surface mesh with cmap "viridis", otherwise as
a volume; then show, screenshot(filename), close.  Returned is the list of
collaborator calls the function body issues. -/
def render_vtk (dims : List Int) (filename : String) : List Event :=
  [Event.startXvfb, Event.acquirePlotter] ++
    (if (1 : Int) ∈ dims then [Event.addMesh "viridis" none]
     else [Event.addVolume none none]) ++
    [Event.showPlot, Event.screenshot filename, Event.closePlotter]

/-- A pyvista `ImageData` grid: geometric dimensions (point counts per axis),
spacing, origin, and the named data arrays attached at cell and at point
granularity. -/
structure ImageData (α : Type) where
  dimensions : List Int
  spacing : List Int
  origin : List Int
  cell_data : List (String × List α)
  point_data : List (String × List α)

/-- `render_2D_from_numpy(numpy_array, filename)`: validates against
`EXTENT_SIZE_2D` (the ValueError aborts the call before anything else
happens), then builds an ImageData grid with dimensions
`(shape[0] + 1, shape[1] + 1, 1)`, spacing `SPACING`, origin `ORIGIN`, and
`cell_data["Spin"] = numpy_array.flatten(order="C")`, then issues
start_xvfb, Plotter(off_screen=True), add_mesh(grid, cmap="viridis",
show_edges=False), show, screenshot(filename), close. -/
def render_2D_from_numpy {α : Type} (numpy_array : NDArray α)
    (filename : String) : Except ShapeMismatch (ImageData α × List Event) :=
  match check_array_dimensions numpy_array EXTENT_SIZE_2D with
  | Except.error err => Except.error err
  | Except.ok _ =>
    let grid : ImageData α :=
      { dimensions := [Int.ofNat (numpy_array.shape.getD 0 0) + 1,
                       Int.ofNat (numpy_array.shape.getD 1 0) + 1, 1]
        spacing := SPACING
        origin := ORIGIN
        cell_data := [(CELL_DATA, flattenC numpy_array)]
        point_data := [] }
    Except.ok (grid,
      [Event.startXvfb, Event.acquirePlotter,
       Event.addMesh "viridis" (some false), Event.showPlot,
       Event.screenshot filename, Event.closePlotter])

/-- `render_3D_from_numpy(numpy_array, filename)`: validates against
`EXTENT_SIZE_3D`, then builds `pv.ImageData(EXTENT_SIZE_3D)` (dimensions
`(101, 101, 51)`), spacing `SPACING`, origin `ORIGIN`,
`cell_data["Spin"] = numpy_array.flatten(order="C")`, then issues
start_xvfb, Plotter(off_screen=True), add_volume(image, cmap="viridis",
scalar_bar_args={"title": CELL_DATA}), show, screenshot(filename), close. -/
def render_3D_from_numpy {α : Type} (numpy_array : NDArray α)
    (filename : String) : Except ShapeMismatch (ImageData α × List Event) :=
  match check_array_dimensions numpy_array EXTENT_SIZE_3D with
  | Except.error err => Except.error err
  | Except.ok _ =>
    let image : ImageData α :=
      { dimensions := EXTENT_SIZE_3D
        spacing := SPACING
        origin := ORIGIN
        cell_data := [(CELL_DATA, flattenC numpy_array)]
        point_data := [] }
    Except.ok (image,
      [Event.startXvfb, Event.acquirePlotter,
       Event.addVolume (some "viridis") (some CELL_DATA), Event.showPlot,
       Event.screenshot filename, Event.closePlotter])

/-- Executes a list of collaborator calls under a failure oracle: each call is
attempted in order; the first call for which `succeeds` is false raises, so it
and everything after it is not performed. -/
def runSteps (succeeds : Event → Bool) : List Event → List Event
  | [] => []
  | e :: rest => if succeeds e then e :: runSteps succeeds rest else []

/-- The filenames written by the screenshot calls actually performed. -/
def screenshotsOf (trace : List Event) : List String :=
  trace.filterMap fun e =>
    match e with
    | Event.screenshot f => some f
    | _ => none

/-- The files a call to an array entry point produces, given a failure
oracle: none at all when the shape check raised. -/
def produced_files {α : Type}
    (r : Except ShapeMismatch (ImageData α × List Event))
    (succeeds : Event → Bool) : List String :=
  match r with
  | Except.error _ => []
  | Except.ok (_, steps) => screenshotsOf (runSteps succeeds steps)

/-- A concrete all-zero integer array of the given shape, for witnesses. -/
def zeros (shape : List Nat) : NDArray Int :=
  ⟨shape, fun _ => 0⟩

/-- A failure oracle under which every collaborator call succeeds except the
screenshot. -/
def failScreenshot : Event → Bool := fun e =>
  match e with
  | Event.screenshot _ => false
  | _ => true

/-- A successful shape check means the array's shape, read as Python ints,
is exactly the expected cell shape. -/
theorem check_ok_shape {α : Type} (a : NDArray α) (e : List Int) (b : Bool)
    (h : check_array_dimensions a e = Except.ok b) :
    a.shape.map Int.ofNat = expected_shape e := by
  unfold check_array_dimensions at h
  split at h
  · simp at h
  · next hc => exact not_not.mp hc

/-- A shape that differs from the expected cell shape makes the check raise,
with both shapes in the error. -/
theorem check_error_of_ne {α : Type} (a : NDArray α) (e : List Int)
    (h : a.shape.map Int.ofNat ≠ expected_shape e) :
    check_array_dimensions a e =
      Except.error ⟨a.shape.map Int.ofNat, expected_shape e⟩ := by
  unfold check_array_dimensions
  rw [if_pos h]

/-- When every collaborator call succeeds, the performed trace is the whole
step list. -/
theorem runSteps_all (l : List Event) : runSteps (fun _ => true) l = l := by
  induction l with
  | nil => rfl
  | cons e rest ih => simp [runSteps, ih]

/-- An array accepted by the 2D shape check has shape (100, 100). -/
theorem shape_of_check_2D {α : Type} (a : NDArray α) (b : Bool)
    (h : check_array_dimensions a EXTENT_SIZE_2D = Except.ok b) :
    a.shape = [100, 100] := by
  have hm := check_ok_shape a EXTENT_SIZE_2D b h
  have h2 : a.shape.map Int.ofNat = List.map Int.ofNat [100, 100] := by
    rw [hm]; rfl
  exact List.map_injective_iff.mpr (fun x y hxy => Int.ofNat.inj hxy) h2

/-- An array accepted by the 3D shape check has shape (100, 100, 50). -/
theorem shape_of_check_3D {α : Type} (a : NDArray α) (b : Bool)
    (h : check_array_dimensions a EXTENT_SIZE_3D = Except.ok b) :
    a.shape = [100, 100, 50] := by
  have hm := check_ok_shape a EXTENT_SIZE_3D b h
  have h2 : a.shape.map Int.ofNat = List.map Int.ofNat [100, 100, 50] := by
    rw [hm]; rfl
  exact List.map_injective_iff.mpr (fun x y hxy => Int.ofNat.inj hxy) h2

/-- A successful call to the 2D entry point determines everything: the input
shape was (100, 100), and the produced grid and collaborator calls are the
ones written in the function body. -/
theorem render_2D_ok_spec {α : Type} (a : NDArray α) (f : String)
    (pr : ImageData α × List Event)
    (h : render_2D_from_numpy a f = Except.ok pr) :
    a.shape = [100, 100] ∧
    pr.1 = { dimensions := [Int.ofNat (a.shape.getD 0 0) + 1,
                            Int.ofNat (a.shape.getD 1 0) + 1, 1]
             spacing := SPACING
             origin := ORIGIN
             cell_data := [(CELL_DATA, flattenC a)]
             point_data := [] } ∧
    pr.2 = [Event.startXvfb, Event.acquirePlotter,
            Event.addMesh "viridis" (some false), Event.showPlot,
            Event.screenshot f, Event.closePlotter] := by
  unfold render_2D_from_numpy at h
  split at h
  · simp at h
  · next b heq =>
    simp only [Except.ok.injEq] at h
    exact ⟨shape_of_check_2D a b heq, by rw [← h], by rw [← h]⟩

/-- A successful call to the 3D entry point determines everything: the input
shape was (100, 100, 50), and the produced grid and collaborator calls are
the ones written in the function body. -/
theorem render_3D_ok_spec {α : Type} (a : NDArray α) (f : String)
    (pr : ImageData α × List Event)
    (h : render_3D_from_numpy a f = Except.ok pr) :
    a.shape = [100, 100, 50] ∧
    pr.1 = { dimensions := EXTENT_SIZE_3D
             spacing := SPACING
             origin := ORIGIN
             cell_data := [(CELL_DATA, flattenC a)]
             point_data := [] } ∧
    pr.2 = [Event.startXvfb, Event.acquirePlotter,
            Event.addVolume (some "viridis") (some CELL_DATA), Event.showPlot,
            Event.screenshot f, Event.closePlotter] := by
  unfold render_3D_from_numpy at h
  split at h
  · simp at h
  · next b heq =>
    simp only [Except.ok.injEq] at h
    exact ⟨shape_of_check_3D a b heq, by rw [← h], by rw [← h]⟩

/-- Recognizes a volume-render collaborator call. -/
def isVolumeCall : Event → Bool := fun e =>
  match e with
  | Event.addVolume _ _ => true
  | _ => false

/-- The concrete all-zero (100, 100) plane used as a witness input. -/
def grid2A : ImageData Int :=
  { dimensions := [101, 101, 1]
    spacing := [1, 1, 1]
    origin := [0, 0, 0]
    cell_data := [("Spin", flattenC (zeros [100, 100]))]
    point_data := [] }

/-- The collaborator calls of the witness 2D render. -/
def steps2A : List Event :=
  [Event.startXvfb, Event.acquirePlotter, Event.addMesh "viridis" (some false),
   Event.showPlot, Event.screenshot "visual_np.png", Event.closePlotter]

/-- The grid built from the all-zero (100, 100, 50) witness volume. -/
def grid3A : ImageData Int :=
  { dimensions := [101, 101, 51]
    spacing := [1, 1, 1]
    origin := [0, 0, 0]
    cell_data := [("Spin", flattenC (zeros [100, 100, 50]))]
    point_data := [] }

/-- The collaborator calls of the witness 3D render. -/
def steps3A : List Event :=
  [Event.startXvfb, Event.acquirePlotter,
   Event.addVolume (some "viridis") (some "Spin"),
   Event.showPlot, Event.screenshot "visual_np.png", Event.closePlotter]

/-- Claim C1: the shape validator returns true exactly when the array's shape
equals the extent with 1 subtracted from every component (same axis count,
same order, comparing as Python ints); in every other case it raises, with
the actual and the expected shape in the error. -/
theorem C1_check_iff {α : Type} (a : NDArray α) (e : List Int) :
    (check_array_dimensions a e = Except.ok true ↔
      a.shape.map Int.ofNat = e.map fun x => x - 1) ∧
    (a.shape.map Int.ofNat ≠ (e.map fun x => x - 1) ↔
      check_array_dimensions a e =
        Except.error ⟨a.shape.map Int.ofNat, e.map fun x => x - 1⟩) := by
  unfold check_array_dimensions expected_shape
  by_cases h : a.shape.map Int.ofNat = e.map fun x => x - 1 <;> simp [h]

/-- Claim C2: the dispatcher classifies on the geometric dimensions alone —
any axis of size 1 selects the surface-mesh render with the fixed colormap
"viridis"; all axes greater than 1 select the volume render; and the
surface path is taken exactly when some axis is 1. -/
theorem C2_dispatch (dims : List Int) (filename : String) :
    ((1 : Int) ∈ dims →
      render_vtk dims filename =
        [Event.startXvfb, Event.acquirePlotter, Event.addMesh "viridis" none,
         Event.showPlot, Event.screenshot filename, Event.closePlotter]) ∧
    ((∀ d ∈ dims, 1 < d) →
      render_vtk dims filename =
        [Event.startXvfb, Event.acquirePlotter, Event.addVolume none none,
         Event.showPlot, Event.screenshot filename, Event.closePlotter]) ∧
    (Event.addMesh "viridis" none ∈ render_vtk dims filename ↔
      (1 : Int) ∈ dims) := by
  refine ⟨fun h => by simp [render_vtk, h], fun h => ?_, ?_⟩
  · have h1 : (1 : Int) ∉ dims := fun hm => absurd (h 1 hm) (lt_irrefl 1)
    simp [render_vtk, h1]
  · by_cases h1 : (1 : Int) ∈ dims <;> simp [render_vtk, h1]

/-- Witness for C2 at dimensions (101, 101, 1) and (101, 101, 51). -/
theorem C2_dispatch_witness :
    render_vtk [101, 101, 1] "visualization.png" =
      [Event.startXvfb, Event.acquirePlotter, Event.addMesh "viridis" none,
       Event.showPlot, Event.screenshot "visualization.png",
       Event.closePlotter] ∧
    render_vtk [101, 101, 51] "visualization.png" =
      [Event.startXvfb, Event.acquirePlotter, Event.addVolume none none,
       Event.showPlot, Event.screenshot "visualization.png",
       Event.closePlotter] :=
  ⟨(C2_dispatch [101, 101, 1] "visualization.png").1 (by decide),
   (C2_dispatch [101, 101, 51] "visualization.png").2.1 (by decide)⟩

/-- Claim C3: on any shape mismatch, either array entry point raises the
shape error — carrying the actual and the expected shape — before a grid is
built or any rendering call is made, and no file is produced under any
failure oracle. -/
theorem C3_validate_before_render {α : Type} (a : NDArray α) (f g : String) :
    (a.shape.map Int.ofNat ≠ expected_shape EXTENT_SIZE_2D →
      render_2D_from_numpy a f =
        Except.error ⟨a.shape.map Int.ofNat, expected_shape EXTENT_SIZE_2D⟩ ∧
      ∀ succeeds, produced_files (render_2D_from_numpy a f) succeeds = []) ∧
    (a.shape.map Int.ofNat ≠ expected_shape EXTENT_SIZE_3D →
      render_3D_from_numpy a g =
        Except.error ⟨a.shape.map Int.ofNat, expected_shape EXTENT_SIZE_3D⟩ ∧
      ∀ succeeds, produced_files (render_3D_from_numpy a g) succeeds = []) := by
  constructor
  · intro h
    have hc := check_error_of_ne a EXTENT_SIZE_2D h
    have hr : render_2D_from_numpy a f =
        Except.error ⟨a.shape.map Int.ofNat, expected_shape EXTENT_SIZE_2D⟩ := by
      unfold render_2D_from_numpy
      rw [hc]
    exact ⟨hr, fun s => by rw [hr]; rfl⟩
  · intro h
    have hc := check_error_of_ne a EXTENT_SIZE_3D h
    have hr : render_3D_from_numpy a g =
        Except.error ⟨a.shape.map Int.ofNat, expected_shape EXTENT_SIZE_3D⟩ := by
      unfold render_3D_from_numpy
      rw [hc]
    exact ⟨hr, fun s => by rw [hr]; rfl⟩

/-- Witness for C3: the (100, 100, 50) array sent to the 2D entry point is
rejected against the 2D extent with both shapes reported, and no screenshot
happens even under an all-success oracle. -/
theorem C3_validate_before_render_witness :
    render_2D_from_numpy (zeros [100, 100, 50]) "visual_np.png" =
      Except.error ⟨[100, 100, 50], [100, 100]⟩ ∧
    produced_files (render_2D_from_numpy (zeros [100, 100, 50]) "visual_np.png")
      (fun _ => true) = [] := by
  have h := (C3_validate_before_render (zeros [100, 100, 50]) "visual_np.png"
    "visual_np.png").1 (by decide)
  exact ⟨h.1, h.2 (fun _ => true)⟩

/-- Claim C10: the validator demands the array's axis count equal the
extent's axis count — no unit axis is collapsed — so the 2D entry point
rejects a (100, 100, 1) array with a shape error against (100, 100). -/
theorem C10_axis_count :
    (∀ (α : Type) (a : NDArray α) (e : List Int) (b : Bool),
        check_array_dimensions a e = Except.ok b →
        a.shape.length = e.length) ∧
    (∀ f : String, render_2D_from_numpy (zeros [100, 100, 1]) f =
        Except.error ⟨[100, 100, 1], [100, 100]⟩) := by
  constructor
  · intro α a e b h
    have hm := check_ok_shape a e b h
    have hl := congrArg List.length hm
    simpa [expected_shape] using hl
  · intro f
    have h : (zeros [100, 100, 1]).shape.map Int.ofNat ≠
        expected_shape EXTENT_SIZE_2D := by decide
    have hc := check_error_of_ne (zeros [100, 100, 1]) EXTENT_SIZE_2D h
    unfold render_2D_from_numpy
    rw [hc]
    rfl

/-- Witness for C10: a shape accepted by the 2D check has the 2D extent's
axis count, and the trailing-unit-axis array is rejected. -/
theorem C10_axis_count_witness :
    (zeros [100, 100]).shape.length = EXTENT_SIZE_2D.length ∧
    render_2D_from_numpy (zeros [100, 100, 1]) "visual_np.png" =
      Except.error ⟨[100, 100, 1], [100, 100]⟩ :=
  ⟨C10_axis_count.1 Int (zeros [100, 100]) EXTENT_SIZE_2D true (by rfl),
   C10_axis_count.2 "visual_np.png"⟩

/-- Claim C4: any grid built by a successful call to either array entry point
carries, as its only cell-granularity field and under the fixed name "Spin",
exactly the row-major (C-order) flattening of the input array; nothing is
attached at point granularity. -/
theorem C4_roundtrip {α : Type} (a b : NDArray α) (f g : String)
    (pr2 pr3 : ImageData α × List Event) :
    (render_2D_from_numpy a f = Except.ok pr2 →
      pr2.1.cell_data = [(CELL_DATA, flattenC a)] ∧ pr2.1.point_data = []) ∧
    (render_3D_from_numpy b g = Except.ok pr3 →
      pr3.1.cell_data = [(CELL_DATA, flattenC b)] ∧ pr3.1.point_data = []) := by
  constructor
  · intro h
    have spec := render_2D_ok_spec a f pr2 h
    rw [spec.2.1]
    exact ⟨rfl, rfl⟩
  · intro h
    have spec := render_3D_ok_spec b g pr3 h
    rw [spec.2.1]
    exact ⟨rfl, rfl⟩

/-- Witness for C4 at the all-zero (100, 100) and (100, 100, 50) arrays. -/
theorem C4_roundtrip_witness :
    (grid2A.cell_data = [(CELL_DATA, flattenC (zeros [100, 100]))] ∧
      grid2A.point_data = []) ∧
    (grid3A.cell_data = [(CELL_DATA, flattenC (zeros [100, 100, 50]))] ∧
      grid3A.point_data = []) :=
  ⟨(C4_roundtrip (zeros [100, 100]) (zeros [100, 100, 50]) "visual_np.png"
      "visual_np.png" (grid2A, steps2A) (grid3A, steps3A)).1 (by rfl),
   (C4_roundtrip (zeros [100, 100]) (zeros [100, 100, 50]) "visual_np.png"
      "visual_np.png" (grid2A, steps2A) (grid3A, steps3A)).2 (by rfl)⟩

/-- Claim C5: a grid built by a successful 2D-entry-point call has geometric
dimensions (shape[0] + 1, shape[1] + 1, 1), unit spacing, origin at zero, and
the call renders it with a surface-mesh call (never a volume call). -/
theorem C5_grid_2D {α : Type} (a : NDArray α) (f : String)
    (pr : ImageData α × List Event)
    (h : render_2D_from_numpy a f = Except.ok pr) :
    pr.1.dimensions = [Int.ofNat (a.shape.getD 0 0) + 1,
                       Int.ofNat (a.shape.getD 1 0) + 1, 1] ∧
    pr.1.spacing = [1, 1, 1] ∧
    pr.1.origin = [0, 0, 0] ∧
    Event.addMesh "viridis" (some false) ∈ pr.2 ∧
    pr.2.any isVolumeCall = false := by
  have spec := render_2D_ok_spec a f pr h
  rw [spec.2.1, spec.2.2]
  exact ⟨rfl, rfl, rfl, by simp, rfl⟩

/-- Witness for C5 at the all-zero (100, 100) array. -/
theorem C5_grid_2D_witness :
    grid2A.dimensions = [Int.ofNat ((zeros [100, 100]).shape.getD 0 0) + 1,
                         Int.ofNat ((zeros [100, 100]).shape.getD 1 0) + 1, 1] ∧
    grid2A.spacing = [1, 1, 1] ∧
    grid2A.origin = [0, 0, 0] ∧
    Event.addMesh "viridis" (some false) ∈ steps2A ∧
    steps2A.any isVolumeCall = false :=
  C5_grid_2D (zeros [100, 100]) "visual_np.png" (grid2A, steps2A) (by rfl)

/-- Claim C6: a grid built by a successful 3D-entry-point call has geometric
dimensions equal to the fixed 3D extent (101, 101, 51), which is shape + 1 on
every axis of the validated input, with unit spacing and origin at zero. -/
theorem C6_grid_3D {α : Type} (a : NDArray α) (f : String)
    (pr : ImageData α × List Event)
    (h : render_3D_from_numpy a f = Except.ok pr) :
    pr.1.dimensions = EXTENT_SIZE_3D ∧
    pr.1.dimensions = a.shape.map (fun s => Int.ofNat s + 1) ∧
    pr.1.spacing = SPACING ∧
    pr.1.origin = ORIGIN := by
  have spec := render_3D_ok_spec a f pr h
  rw [spec.2.1, spec.1]
  exact ⟨rfl, by rfl, rfl, rfl⟩

/-- Witness for C6 at the all-zero (100, 100, 50) array. -/
theorem C6_grid_3D_witness :
    grid3A.dimensions = EXTENT_SIZE_3D ∧
    grid3A.dimensions = (zeros [100, 100, 50]).shape.map
      (fun s => Int.ofNat s + 1) ∧
    grid3A.spacing = SPACING ∧
    grid3A.origin = ORIGIN :=
  C6_grid_3D (zeros [100, 100, 50]) "visual_np.png" (grid3A, steps3A) (by rfl)

/-- Claim C8: an extent component equal to 1 makes the expected cell size 0
on that axis — the uniform off-by-one point-to-cell conversion, with no
special case — so an array the validator accepts has size 0 there. -/
theorem C8_degenerate_axis (e : List Int) (i : Nat) (h : e[i]? = some 1) :
    (expected_shape e)[i]? = some 0 ∧
    ∀ (α : Type) (a : NDArray α),
      check_array_dimensions a e = Except.ok true → a.shape[i]? = some 0 := by
  have hexp : (expected_shape e)[i]? = some 0 := by
    rw [expected_shape, List.getElem?_map, h]
    rfl
  refine ⟨hexp, ?_⟩
  intro α a hc
  have hm := check_ok_shape a e true hc
  have hmap : (a.shape.map Int.ofNat)[i]? = some 0 := by rw [hm]; exact hexp
  rw [List.getElem?_map] at hmap
  cases hs : a.shape[i]? with
  | none => rw [hs] at hmap; simp at hmap
  | some n =>
    rw [hs] at hmap
    simp only [Option.map_some', Option.some.injEq] at hmap
    have hn : n = 0 := Int.ofNat.inj hmap
    rw [hn]

/-- Witness for C8 at extent (101, 101, 1) and the (100, 100, 0) array. -/
theorem C8_degenerate_axis_witness :
    (expected_shape [101, 101, 1])[2]? = some 0 ∧
    (zeros [100, 100, 0]).shape[2]? = some 0 := by
  have h := C8_degenerate_axis [101, 101, 1] 2 (by decide)
  exact ⟨h.1, h.2 Int (zeros [100, 100, 0]) (by rfl)⟩

/-- Claim C9: a grid built by the 2D entry point has third geometric
dimension 1 and is sent down the dispatcher's surface path; a grid built by
the 3D entry point has all geometric dimensions above 1 and is sent down the
dispatcher's volume path. -/
theorem C9_entry_dispatch_consistency {α : Type} (a b : NDArray α)
    (f g f2 g2 : String) (pr2 pr3 : ImageData α × List Event) :
    (render_2D_from_numpy a f = Except.ok pr2 →
      pr2.1.dimensions[2]? = some 1 ∧ (1 : Int) ∈ pr2.1.dimensions ∧
      Event.addMesh "viridis" none ∈ render_vtk pr2.1.dimensions f2) ∧
    (render_3D_from_numpy b g = Except.ok pr3 →
      (∀ d ∈ pr3.1.dimensions, 1 < d) ∧ (1 : Int) ∉ pr3.1.dimensions ∧
      Event.addVolume none none ∈ render_vtk pr3.1.dimensions g2) := by
  constructor
  · intro h
    have spec := render_2D_ok_spec a f pr2 h
    rw [spec.2.1]
    refine ⟨rfl, by simp, ?_⟩
    have h1 : (1 : Int) ∈ [Int.ofNat (a.shape.getD 0 0) + 1,
        Int.ofNat (a.shape.getD 1 0) + 1, (1 : Int)] := by simp
    simp [render_vtk, h1]
  · intro h
    have spec := render_3D_ok_spec b g pr3 h
    rw [spec.2.1]
    refine ⟨?_, ?_, ?_⟩
    · show ∀ d ∈ EXTENT_SIZE_3D, 1 < d
      decide
    · show (1 : Int) ∉ EXTENT_SIZE_3D
      decide
    · show Event.addVolume none none ∈ render_vtk EXTENT_SIZE_3D g2
      have h1 : (1 : Int) ∉ EXTENT_SIZE_3D := by decide
      simp [render_vtk, h1]

/-- Witness for C9 at the all-zero witness arrays. -/
theorem C9_entry_dispatch_consistency_witness :
    grid2A.dimensions[2]? = some 1 ∧
    Event.addMesh "viridis" none ∈ render_vtk grid2A.dimensions "a.png" ∧
    (1 : Int) ∉ grid3A.dimensions ∧
    Event.addVolume none none ∈ render_vtk grid3A.dimensions "b.png" := by
  have h2 := (C9_entry_dispatch_consistency (zeros [100, 100])
    (zeros [100, 100, 50]) "visual_np.png" "visual_np.png" "a.png" "b.png"
    (grid2A, steps2A) (grid3A, steps3A)).1 (by rfl)
  have h3 := (C9_entry_dispatch_consistency (zeros [100, 100])
    (zeros [100, 100, 50]) "visual_np.png" "visual_np.png" "a.png" "b.png"
    (grid2A, steps2A) (grid3A, steps3A)).2 (by rfl)
  exact ⟨h2.1, h2.2.2, h3.2.1, h3.2.2⟩

/-- When the close call only occurs as the final step of a step list and it
appears in the performed trace, every step of the list was performed. -/
theorem runSteps_complete_of_close_mem :
    ∀ (l : List Event) (ok : Event → Bool),
      (∀ e ∈ l.dropLast, e ≠ Event.closePlotter) →
      Event.closePlotter ∈ runSteps ok l → runSteps ok l = l := by
  intro l
  induction l with
  | nil => intro ok _ _; rfl
  | cons e rest ih =>
    intro ok hdrop hmem
    by_cases hok : ok e
    · simp only [runSteps, hok, if_true] at hmem ⊢
      cases rest with
      | nil => simp [runSteps]
      | cons e2 rest2 =>
        have he : e ≠ Event.closePlotter := by
          refine hdrop e ?_
          rw [List.dropLast_cons₂]
          exact List.mem_cons_self _ _
        have hmem2 : Event.closePlotter ∈ runSteps ok (e2 :: rest2) := by
          rcases List.mem_cons.mp hmem with hh | hh
          · exact absurd hh.symm he
          · exact hh
        have hdrop2 : ∀ x ∈ (e2 :: rest2).dropLast, x ≠ Event.closePlotter := by
          intro x hx
          refine hdrop x ?_
          rw [List.dropLast_cons₂]
          exact List.mem_cons_of_mem _ hx
        rw [ih ok hdrop2 hmem2]
    · simp [runSteps, hok] at hmem

/-- Counterexample to claim C7 as stated: under an oracle where every
collaborator call succeeds except the screenshot (a CollaboratorFailure at
the screenshot, e.g. a disk-write failure), the dispatcher acquires the
off-screen plotter but never closes it — the close call is not in the
performed trace, because no try/finally protects it. -/
theorem C7_counterexample :
    Event.acquirePlotter ∈
      runSteps failScreenshot (render_vtk [101, 101, 51] "visualization.png") ∧
    Event.closePlotter ∉
      runSteps failScreenshot (render_vtk [101, 101, 51] "visualization.png") := by
  decide

/-- Claim C7 (amended): each render call closes the rendering context exactly
when every collaborator call succeeds — the close is the final collaborator
call of the full step list, the all-success trace performs the whole list,
and any trace that contains the close performed the whole list (so an error
exit after acquisition, as in the counterexample, skips the close and the
failure propagates). -/
theorem C7_close_on_success {α : Type} (dims : List Int) (f : String)
    (a b : NDArray α) (g h2 : String) (pr2 pr3 : ImageData α × List Event) :
    (runSteps (fun _ => true) (render_vtk dims f) = render_vtk dims f ∧
     (render_vtk dims f).getLast? = some Event.closePlotter ∧
     ∀ ok, Event.closePlotter ∈ runSteps ok (render_vtk dims f) →
       runSteps ok (render_vtk dims f) = render_vtk dims f) ∧
    (render_2D_from_numpy a g = Except.ok pr2 →
      runSteps (fun _ => true) pr2.2 = pr2.2 ∧
      pr2.2.getLast? = some Event.closePlotter ∧
      ∀ ok, Event.closePlotter ∈ runSteps ok pr2.2 →
        runSteps ok pr2.2 = pr2.2) ∧
    (render_3D_from_numpy b h2 = Except.ok pr3 →
      runSteps (fun _ => true) pr3.2 = pr3.2 ∧
      pr3.2.getLast? = some Event.closePlotter ∧
      ∀ ok, Event.closePlotter ∈ runSteps ok pr3.2 →
        runSteps ok pr3.2 = pr3.2) := by
  refine ⟨⟨runSteps_all _, ?_, ?_⟩, fun h => ?_, fun h => ?_⟩
  · by_cases h1 : (1 : Int) ∈ dims <;> simp [render_vtk, h1]
  · intro ok hmem
    refine runSteps_complete_of_close_mem _ ok ?_ hmem
    by_cases h1 : (1 : Int) ∈ dims <;> simp [render_vtk, h1, List.dropLast]
  · have spec := render_2D_ok_spec a g pr2 h
    rw [spec.2.2]
    refine ⟨runSteps_all _, rfl, ?_⟩
    intro ok hmem
    refine runSteps_complete_of_close_mem _ ok ?_ hmem
    simp [List.dropLast]
  · have spec := render_3D_ok_spec b h2 pr3 h
    rw [spec.2.2]
    refine ⟨runSteps_all _, rfl, ?_⟩
    intro ok hmem
    refine runSteps_complete_of_close_mem _ ok ?_ hmem
    simp [List.dropLast]

/-- Witness for the amended C7: under the all-success oracle the 3D render
performs its whole step list, that list ends with the close call, and so does
the step list of a successful 2D render. -/
theorem C7_close_on_success_witness :
    runSteps (fun _ => true) (render_vtk [101, 101, 51] "visualization.png") =
      render_vtk [101, 101, 51] "visualization.png" ∧
    steps2A.getLast? = some Event.closePlotter ∧
    runSteps (fun _ => true) steps3A = steps3A := by
  have h := C7_close_on_success [101, 101, 51] "visualization.png"
    (zeros [100, 100]) (zeros [100, 100, 50]) "visual_np.png" "visual_np.png"
    (grid2A, steps2A) (grid3A, steps3A)
  have h2 := h.2.1 (by rfl)
  have h3 := h.2.2 (by rfl)
  exact ⟨h.1.2.2 (fun _ => true) (by decide), h2.2.1, h3.1⟩

end VizUtils
